import Mathlib

/-!
Shallow embedding of the FitTrack authentication and authorization core
(src/fittrack/security/authentication.py, src/fittrack/security/authorization.py,
src/fittrack/services/auth_service.py, src/fittrack/models/user.py), together
with theorems settling the spec claims about it.

Modelling conventions:
- SQLAlchemy rows become Lean structures; the session becomes an explicit
  `List User` threaded through the service functions, with `session.add`
  modelled as appending.
- Python dict results with a success flag become inductive result types.
- Wall-clock instants are integers (seconds); `timedelta(minutes=m)` is
  `m * 60` seconds and `timedelta(days=d)` is `d * 86400` seconds.
- JWT encode/sign/decode is external (python-jose); tokens are modelled as
  their payloads, since every claim here is about the claims embedded in a
  payload, not about base64/RSA byte formats.
- The external bcrypt primitive is modelled symbolically: a modelled hash is
  the fixed bcrypt version/cost prefix followed by the hashed password
  (the real primitive stores a one-way digest; the model preserves exactly
  the primitive's observable contract: `checkpw` succeeds precisely on the
  hashed password, and raises on an input that does not have the bcrypt
  format).  Exceptions are modelled with `Except`.
- Fresh values produced inside a function (`uuid4()`, `datetime.now`,
  `date.today`) are passed in as explicit parameters.
-/

namespace FitTrack

/-- The `users` row from src/fittrack/models/user.py.  The `user_id` primary
key column is `String(36)` (a stringified UUID), so in the model it is a
`String`; timestamps are `Option Int` seconds. -/
structure User where
  user_id : String
  email : String
  password_hash : String
  email_verified : Bool
  email_verified_at : Option Int
  status : String
  role : String
  premium_expires_at : Option Int
  point_balance : Int
  last_login_at : Option Int
  deriving Repr, DecidableEq

/-! ### Model of the external bcrypt primitive -/

/-- Version-and-cost prefix of a bcrypt hash produced with cost factor 12. -/
def BCRYPT_PREFIX : String := "$2b$12$"

/-- Model of `bcrypt.hashpw` (salt randomness is not modelled; no claim
depends on it). -/
def bcrypt_hashpw (password : String) : String :=
  BCRYPT_PREFIX ++ password

/-- Model of `bcrypt.checkpw`: raises `ValueError("Invalid salt")` when the
stored hash does not have the bcrypt format, otherwise compares the
candidate password against the hash. -/
def bcrypt_checkpw (password hashed : String) : Except String Bool :=
  if BCRYPT_PREFIX.toList.isPrefixOf hashed.toList then
    Except.ok (hashed == bcrypt_hashpw password)
  else
    Except.error "ValueError: Invalid salt"

instance {ε α : Type} [DecidableEq ε] [DecidableEq α] : DecidableEq (Except ε α) := fun x y =>
  match x, y with
  | .ok a, .ok b =>
    if h : a = b then .isTrue (by rw [h]) else .isFalse (by simp [h])
  | .error a, .error b =>
    if h : a = b then .isTrue (by rw [h]) else .isFalse (by simp [h])
  | .ok _, .error _ => .isFalse (by simp)
  | .error _, .ok _ => .isFalse (by simp)

/-! ### src/fittrack/security/authentication.py -/

def BCRYPT_ROUNDS : Int := 12
def ACCESS_TOKEN_EXPIRE_MINUTES : Int := 30
def REFRESH_TOKEN_EXPIRE_DAYS : Int := 7

/-- `hash_password`: delegates to bcrypt with cost factor 12. -/
def hash_password (password : String) : String :=
  bcrypt_hashpw password

/-- `verify_password`: the source calls `bcrypt.checkpw` directly, with no
exception handling, so an exception raised by the primitive propagates to
the caller; hence the model's result type is `Except String Bool`. -/
def verify_password (plain_password hashed_password : String) : Except String Bool :=
  bcrypt_checkpw plain_password hashed_password

/-- Character class of `[A-Z]` in an ASCII regex search (`Char.isUpper` is
exactly the ASCII range). -/
def containsUppercase (password : String) : Bool :=
  password.toList.any Char.isUpper

/-- Character class of `[a-z]`. -/
def containsLowercase (password : String) : Bool :=
  password.toList.any Char.isLower

/-- Character class of a digit search (restricted to ASCII `0-9`, which is
what every password in scope contains). -/
def containsDigit (password : String) : Bool :=
  password.toList.any Char.isDigit

/-- The fixed special-character set of the source's regex. -/
def SPECIAL_CHARS : List Char :=
  ['!', '@', '#', '$', '%', '^', '&', '*', '(', ')', ',', '.', '?',
   '\x22', ':', '\x7b', '\x7d', '|', '<', '>']

def containsSpecial (password : String) : Bool :=
  password.toList.any (fun c => SPECIAL_CHARS.contains c)

/-- `validate_password_strength`: five checks, each returning immediately on
failure.  Pair of the `valid` flag and the `message`. -/
def validate_password_strength (password : String) : Bool × String :=
  if password.length < 12 then
    (false, "Password must be at least 12 characters long")
  else if !containsUppercase password then
    (false, "Password must contain at least one uppercase letter")
  else if !containsLowercase password then
    (false, "Password must contain at least one lowercase letter")
  else if !containsDigit password then
    (false, "Password must contain at least one digit")
  else if !containsSpecial password then
    (false, "Password must contain at least one special character")
  else
    (true, "Password is strong")

/-- Payload of an access token built by `create_access_token`. -/
structure AccessPayload where
  sub : String
  email : String
  role : String
  exp : Int
  iat : Int
  deriving Repr, DecidableEq

/-- Payload of a refresh token built by `create_refresh_token`;
`type` is the discriminator claim. -/
structure RefreshPayload where
  sub : String
  type : String
  exp : Int
  iat : Int
  deriving Repr, DecidableEq

/-- `create_access_token`: subject is `str(user_id)` for the `user_id`
argument the caller passes; expiry defaults to 30 minutes from `now`. -/
def create_access_token (user_id email role : String) (now : Int)
    (expires_delta : Option Int) : AccessPayload :=
  let delta := expires_delta.getD (ACCESS_TOKEN_EXPIRE_MINUTES * 60)
  { sub := user_id, email := email, role := role, exp := now + delta, iat := now }

/-- `create_refresh_token`: minimal claim set, 7-day expiry. -/
def create_refresh_token (user_id : String) (now : Int) : RefreshPayload :=
  { sub := user_id, type := "refresh",
    exp := now + REFRESH_TOKEN_EXPIRE_DAYS * 86400, iat := now }

/-! ### Calendar dates (model of Python `datetime.date`) -/

/-- A calendar date as Python's `datetime.date` carries it. -/
structure PyDate where
  year : Int
  month : Int
  day : Int
  deriving Repr, DecidableEq

/-- Gregorian leap-year rule. -/
def isLeapYear (y : Int) : Bool :=
  (y % 4 == 0 && y % 100 != 0) || y % 400 == 0

/-- Days in a month of a given year. -/
def daysInMonth (y m : Int) : Int :=
  if m == 2 then (if isLeapYear y then 29 else 28)
  else if m == 4 || m == 6 || m == 9 || m == 11 then 30
  else 31

/-- A date Python's `datetime.date` constructor would accept. -/
def PyDate.valid (d : PyDate) : Prop :=
  1 ≤ d.month ∧ d.month ≤ 12 ∧ 1 ≤ d.day ∧ d.day ≤ daysInMonth d.year d.month

instance (d : PyDate) : Decidable d.valid := by
  unfold PyDate.valid; infer_instance

/-- The calendar day after `d`. -/
def PyDate.nextDay (d : PyDate) : PyDate :=
  if d.day < daysInMonth d.year d.month then
    { d with day := d.day + 1 }
  else if d.month < 12 then
    { year := d.year, month := d.month + 1, day := 1 }
  else
    { year := d.year + 1, month := 1, day := 1 }

/-- Chronological order on dates (lexicographic on year, month, day). -/
def PyDate.le (a b : PyDate) : Prop :=
  a.year < b.year ∨
    (a.year = b.year ∧
      (a.month < b.month ∨ (a.month = b.month ∧ a.day ≤ b.day)))

instance (a b : PyDate) : Decidable (PyDate.le a b) := by
  unfold PyDate.le; infer_instance

/-- Python's lexicographic comparison of the pairs
`(today.month, today.day) < (birth.month, birth.day)`. -/
def monthDayLt (a b : Int × Int) : Bool :=
  a.1 < b.1 || (a.1 == b.1 && a.2 < b.2)

/-! ### src/fittrack/services/auth_service.py -/

def INELIGIBLE_STATES : List String := ["NY", "FL", "RI"]

def MINIMUM_AGE : Int := 18

/-- `AuthService._calculate_age`: year difference, decremented when today's
(month, day) pair precedes the birth (month, day) pair.  `today` (the
source's `date.today()`) is an explicit argument. -/
def calculate_age (today birth_date : PyDate) : Int :=
  let age := today.year - birth_date.year
  if monthDayLt (today.month, today.day) (birth_date.month, birth_date.day) then
    age - 1
  else
    age

/-- Result dictionary of `AuthService.register_user`. -/
inductive RegisterResult where
  | failure (message : String)
  | success (message user_id email : String)
  deriving Repr, DecidableEq

/-- `AuthService.register_user`.  The session is a `List User`;
`session.add` appends; `date.fromisoformat` is modelled by taking the
already-parsed `date_of_birth`; `uuid4()` is the explicit `freshUuid`.
Returns the result dictionary together with the session state. -/
def register_user (db : List User) (email password : String)
    (date_of_birth : PyDate) (state_of_residence : String)
    (today : PyDate) (freshUuid : String) : RegisterResult × List User :=
  match db.find? (fun u => u.email == email) with
  | some _ => (.failure "Email address already exists", db)
  | none =>
    let password_validation := validate_password_strength password
    if !password_validation.1 then
      (.failure password_validation.2, db)
    else
      let age := calculate_age today date_of_birth
      if age < MINIMUM_AGE then
        (.failure "You must be at least 18 years old to register", db)
      else if INELIGIBLE_STATES.contains state_of_residence.toUpper then
        (.failure ("Registration is not available in " ++ state_of_residence
                   ++ " at this time"), db)
      else
        let user : User :=
          { user_id := freshUuid
            email := email
            password_hash := hash_password password
            email_verified := false
            email_verified_at := none
            status := "pending"
            role := "user"
            premium_expires_at := none
            point_balance := 0
            last_login_at := none }
        (.success "User registered successfully. Please verify your email."
          user.user_id user.email, db ++ [user])

/-- Result dictionary of `AuthService.login`: on success it carries the two
token payloads and the returned user summary fields. -/
inductive LoginResult where
  | failure (message : String)
  | success (message : String) (access_token : AccessPayload)
      (refresh_token : RefreshPayload)
      (user_id email role : String) (point_balance : Int)
  deriving Repr, DecidableEq

/-- `AuthService.login`.  The `user_id` column is `String(36)`, so the
source's `uuid4() if isinstance(user.user_id, str) else user.user_id`
always takes the `isinstance` branch and passes a freshly generated UUID
(`freshUuid1` for the access token, `freshUuid2` for the refresh token)
as the token subject.  An exception escaping `verify_password` propagates,
hence the `Except` result. -/
def login (db : List User) (email password : String)
    (freshUuid1 freshUuid2 : String) (now : Int) :
    Except String (LoginResult × List User) :=
  match db.find? (fun u => u.email == email) with
  | none => .ok (.failure "Invalid email or password", db)
  | some user =>
    match verify_password password user.password_hash with
    | .error e => .error e
    | .ok passwordOk =>
      if !passwordOk then
        .ok (.failure "Invalid email or password", db)
      else if !user.email_verified then
        .ok (.failure "Please verify your email address before logging in", db)
      else if user.status == "suspended" then
        .ok (.failure "Your account has been suspended. Please contact support.", db)
      else if user.status == "banned" then
        .ok (.failure "Your account has been banned.", db)
      else if !(user.status == "active") then
        .ok (.failure "Your account is not active. Please verify your email.", db)
      else
        let user' := { user with last_login_at := some now }
        let db' := db.map (fun u => if u.email == email then user' else u)
        let access_token := create_access_token freshUuid1 user.email user.role now none
        let refresh_token := create_refresh_token freshUuid2 now
        .ok (.success "Login successful" access_token refresh_token
          user.user_id user.email user.role user.point_balance, db')

/-- Result dictionary of `AuthService.refresh_access_token`. -/
inductive RefreshResult where
  | failure (message : String)
  | success (message : String) (access_token : AccessPayload)
  deriving Repr, DecidableEq

/-- `AuthService.refresh_access_token`.  `decode_token` is the external JWT
verification returning the payload or `None`; its outcome is the `payload`
argument (`none` models every decode failure).  A payload whose `sub` is
the empty string models the falsy `payload.get("sub")` case.  As in
`login`, the new access token's subject is a fresh UUID, never the stored
`user.user_id`. -/
def refresh_access_token (db : List User) (payload : Option RefreshPayload)
    (freshUuid : String) (now : Int) : RefreshResult :=
  match payload with
  | none => .failure "Invalid or expired refresh token"
  | some p =>
    if p.sub == "" then
      .failure "Invalid token payload"
    else
      match db.find? (fun u => u.user_id == p.sub) with
      | none => .failure "User not found"
      | some user =>
        if !(user.status == "active") then
          .failure "User account is not active"
        else
          .success "Access token refreshed"
            (create_access_token freshUuid user.email user.role now none)

/-! ### src/fittrack/models/user.py : `User.verify_email` -/

/-- `User.verify_email`: sets the verified flag and timestamp, and promotes
`pending` to `active`.  `now` is the source's `datetime.now(timezone.utc)`. -/
def User.verify_email (u : User) (now : Int) : User :=
  let u1 := { u with email_verified := true, email_verified_at := some now }
  if u1.status == "pending" then { u1 with status := "active" } else u1

/-! ### src/fittrack/security/authorization.py -/

/-- Outcome of a dependency: either the passed-through user or a raised
`HTTPException` with its status code and detail string. -/
inductive AuthOutcome where
  | ok (user : User)
  | err (status_code : Int) (detail : String)
  deriving Repr, DecidableEq

/-- `require_role(*allowed_roles)`: the returned `role_checker` dependency,
applied to the already-authenticated user. -/
def require_role (allowed_roles : List String) (current_user : User) : AuthOutcome :=
  if !(allowed_roles.contains current_user.role) then
    .err 403 ("Insufficient permissions. Required role: "
              ++ String.intercalate ", " allowed_roles)
  else
    .ok current_user

/-- `get_current_admin`, applied to the already-authenticated user. -/
def get_current_admin (current_user : User) : AuthOutcome :=
  if !(current_user.role == "admin") then
    .err 403 "Admin access required"
  else
    .ok current_user

/-- Whether a dependency outcome accepts (returns the user). -/
def AuthOutcome.accepts : AuthOutcome → Bool
  | .ok _ => true
  | .err _ _ => false

/-- The HTTP status code of a raised outcome (`none` when accepted);
403 is the authorization-kind error in this subsystem, 401 the
authentication-kind one. -/
def AuthOutcome.errKind : AuthOutcome → Option Int
  | .ok _ => none
  | .err c _ => some c

/-! ### Concrete fixtures used by the concrete-input theorems -/

/-- A stored, active, email-verified principal. -/
def demoUser : User :=
  { user_id := "11111111-1111-1111-1111-111111111111"
    email := "user@example.com"
    password_hash := hash_password "SecureP@ssw0rd123!"
    email_verified := true
    email_verified_at := some 0
    status := "active"
    role := "user"
    premium_expires_at := none
    point_balance := 0
    last_login_at := none }

/-- A stored, email-verified principal whose account is suspended. -/
def demoSuspended : User :=
  { demoUser with
    user_id := "22222222-2222-2222-2222-222222222222"
    email := "suspended@example.com"
    status := "suspended" }

/-- First fresh UUID drawn by `uuid4()` inside a call. -/
def freshUuidA : String := "aaaaaaaa-aaaa-4aaa-aaaa-aaaaaaaaaaaa"

/-- Second fresh UUID drawn by `uuid4()` inside a call. -/
def freshUuidB : String := "bbbbbbbb-bbbb-4bbb-bbbb-bbbbbbbbbbbb"

/-! ### Theorems for the claims -/

/-- Claim C9: an access token and a refresh token created at the same
instant with the default TTLs (30 minutes, 7 days) have strictly ordered
expiries: the refresh token expires strictly later. -/
theorem refresh_token_expiry_exceeds_access_token_expiry
    (uid1 uid2 email role : String) (now : Int) :
    (create_access_token uid1 email role now none).exp <
      (create_refresh_token uid2 now).exp := by
  simp [create_access_token, create_refresh_token,
    ACCESS_TOKEN_EXPIRE_MINUTES, REFRESH_TOKEN_EXPIRE_DAYS]

/-- Claim C7: `User.verify_email` moves `status` to `"active"` exactly when
it was `"pending"` and leaves it unchanged otherwise; in particular an
already-active account stays active (never regresses to pending). -/
theorem verify_email_activates_iff_pending (u : User) (now : Int) :
    (u.verify_email now).status =
      (if u.status = "pending" then "active" else u.status) ∧
    (u.status = "active" → (u.verify_email now).status = "active") ∧
    ((u.verify_email now).status = "pending" → u.status = "pending") := by
  unfold User.verify_email
  by_cases h : u.status = "pending" <;> simp [h]

/-- Claim C8: `get_current_admin` accepts exactly the principals that
`require_role ["admin"]` accepts (namely those of role `"admin"`, passed
through unchanged), and on rejection both raise an error of the same kind
(HTTP 403, the authorization kind). -/
theorem get_current_admin_equiv_require_role_admin (u : User) :
    (get_current_admin u).accepts = (require_role ["admin"] u).accepts ∧
    ((get_current_admin u).accepts = true ↔ u.role = "admin") ∧
    (get_current_admin u).errKind = (require_role ["admin"] u).errKind ∧
    (u.role = "admin" → get_current_admin u = .ok u ∧ require_role ["admin"] u = .ok u) := by
  by_cases h : u.role = "admin" <;>
    simp [get_current_admin, require_role, AuthOutcome.accepts, AuthOutcome.errKind, h]

/-- Closed witness for claim C7's theorem at a concrete active principal. -/
theorem verify_email_activates_iff_pending_witness :
    (demoUser.verify_email 99).status =
      (if demoUser.status = "pending" then "active" else demoUser.status) ∧
    (demoUser.status = "active" → (demoUser.verify_email 99).status = "active") ∧
    ((demoUser.verify_email 99).status = "pending" →
      demoUser.status = "pending") :=
  verify_email_activates_iff_pending demoUser 99

/-- Closed witness for claim C8's theorem at a concrete admin principal. -/
theorem get_current_admin_equiv_require_role_admin_witness :
    (get_current_admin { demoUser with role := "admin" }).accepts =
      (require_role ["admin"] { demoUser with role := "admin" }).accepts ∧
    ((get_current_admin { demoUser with role := "admin" }).accepts = true ↔
      ({ demoUser with role := "admin" } : User).role = "admin") ∧
    (get_current_admin { demoUser with role := "admin" }).errKind =
      (require_role ["admin"] { demoUser with role := "admin" }).errKind ∧
    (({ demoUser with role := "admin" } : User).role = "admin" →
      get_current_admin { demoUser with role := "admin" } =
        .ok { demoUser with role := "admin" } ∧
      require_role ["admin"] { demoUser with role := "admin" } =
        .ok { demoUser with role := "admin" }) :=
  get_current_admin_equiv_require_role_admin { demoUser with role := "admin" }

/-- Claim C2 (code bug): `verify_password` has no exception handling around
`bcrypt.checkpw`, so on a malformed (non-bcrypt) hash the primitive's
`ValueError` propagates to the caller instead of the function returning
`false` as the spec requires.  Evaluation at a failing input. -/
theorem verify_password_propagates_error_on_malformed_hash :
    verify_password "AnyPassword1!" "not-a-bcrypt-hash" =
      Except.error "ValueError: Invalid salt" ∧
    verify_password "SecureP@ssw0rd123!" (hash_password "SecureP@ssw0rd123!") =
      Except.ok true := by
  constructor <;> decide

/-- Claim C1 (code bug): on a successful login the source computes the token
subject as `uuid4() if isinstance(user.user_id, str) else user.user_id`,
and `user_id` is a `String(36)` column, so both issued tokens carry a
freshly generated UUID as `sub`, not the stored `user_id`; the same slip in
`refresh_access_token` makes the refresh token issued at login unusable
(its subject matches no stored principal). -/
theorem login_and_refresh_embed_fresh_uuid_as_subject :
    login [demoUser] "user@example.com" "SecureP@ssw0rd123!"
        freshUuidA freshUuidB 1000 =
      Except.ok (LoginResult.success "Login successful"
        { sub := freshUuidA, email := "user@example.com", role := "user",
          exp := 2800, iat := 1000 }
        { sub := freshUuidB, type := "refresh", exp := 605800, iat := 1000 }
        "11111111-1111-1111-1111-111111111111" "user@example.com" "user" 0,
        [{ demoUser with last_login_at := some 1000 }]) ∧
    freshUuidA ≠ demoUser.user_id ∧
    freshUuidB ≠ demoUser.user_id ∧
    refresh_access_token [demoUser]
        (some { sub := freshUuidB, type := "refresh", exp := 605800, iat := 1000 })
        freshUuidA 2000 =
      RefreshResult.failure "User not found" := by
  refine ⟨by decide, by decide, by decide, by decide⟩

/-- Claim C3: a login with an email matching no stored principal and a login
with an existing email but a wrong (non-matching) password return identical
results: the same generic failure dictionary, with untouched session state,
so the two cases are indistinguishable to the caller. -/
theorem login_unknown_email_wrong_password_same_failure
    (db : List User) (email1 email2 password1 password2 f1 f2 f3 f4 : String)
    (now1 now2 : Int) (u : User)
    (hnone : db.find? (fun v => v.email == email1) = none)
    (hsome : db.find? (fun v => v.email == email2) = some u)
    (hwrong : verify_password password2 u.password_hash = Except.ok false) :
    login db email1 password1 f1 f2 now1 = login db email2 password2 f3 f4 now2 ∧
    login db email1 password1 f1 f2 now1 =
      Except.ok (LoginResult.failure "Invalid email or password", db) := by
  unfold login
  rw [hnone, hsome]
  simp [hwrong]

/-- Closed witness for claim C3's theorem at a concrete store and inputs. -/
theorem login_unknown_email_wrong_password_same_failure_witness :
    login [demoUser] "ghost@example.com" "IrrelevantPw1!" "f1" "f2" 5 =
      login [demoUser] "user@example.com" "WrongPassword456!" "f3" "f4" 6 ∧
    login [demoUser] "ghost@example.com" "IrrelevantPw1!" "f1" "f2" 5 =
      Except.ok (LoginResult.failure "Invalid email or password", [demoUser]) := by
  exact login_unknown_email_wrong_password_same_failure [demoUser]
    "ghost@example.com" "user@example.com" "IrrelevantPw1!" "WrongPassword456!"
    "f1" "f2" "f3" "f4" 5 6 demoUser (by decide) (by decide) (by decide)

/-- The spec's ordered rule list for the password policy (spec §4.2): each
rule paired with its failure message, in the spec's order. -/
def specPolicyChecks (password : String) : List (Bool × String) :=
  [ (decide (12 ≤ password.length),
     "Password must be at least 12 characters long"),
    (containsUppercase password,
     "Password must contain at least one uppercase letter"),
    (containsLowercase password,
     "Password must contain at least one lowercase letter"),
    (containsDigit password,
     "Password must contain at least one digit"),
    (containsSpecial password,
     "Password must contain at least one special character") ]

/-- The spec's "first failure wins" evaluation of an ordered rule list:
the first failing rule's message; valid when every rule passes. -/
def firstFailure : List (Bool × String) → Bool × String
  | [] => (true, "Password is strong")
  | (ok, msg) :: rest => if ok then firstFailure rest else (false, msg)

/-- Claim C4: `validate_password_strength` is exactly the first-failure-wins
cascade of the five rules in the order length, uppercase, lowercase, digit,
special character, and it reports valid exactly when all five rules pass. -/
theorem validate_password_strength_order_and_validity (password : String) :
    validate_password_strength password = firstFailure (specPolicyChecks password) ∧
    ((validate_password_strength password).1 = true ↔
      ((specPolicyChecks password).all fun c => c.1) = true) := by
  have hlen : (decide (12 ≤ password.length)) = !decide (password.length < 12) := by
    by_cases h : password.length < 12
    · simp [h, Nat.not_le.mpr h]
    · simp [h, Nat.le_of_not_lt h]
  simp only [validate_password_strength, specPolicyChecks, firstFailure, hlen]
  by_cases h1 : password.length < 12 <;>
  by_cases h2 : containsUppercase password = true <;>
  by_cases h3 : containsLowercase password = true <;>
  by_cases h4 : containsDigit password = true <;>
  by_cases h5 : containsSpecial password = true <;>
    simp_all <;>
    rw [if_neg (by omega)]

/-- The spec's post-authentication status cascade (spec §4.5), in the spec's
order: banned first, then suspended, then the generic not-active message. -/
def specStatusGateMessage (status : String) : String :=
  if status == "banned" then
    "Your account has been banned."
  else if status == "suspended" then
    "Your account has been suspended. Please contact support."
  else
    "Your account is not active. Please verify your email."

/-- Claim C6: when the password verifies and the email is verified but the
account is not active, `login` returns exactly the failure the
banned/suspended/generic cascade prescribes for the account's status (the
source checks the two statuses in the opposite textual order, but a status
is a single string, so the branches are mutually exclusive and the result
coincides with the spec's cascade on every input), and the three branch
messages are pairwise distinct. -/
theorem login_status_gate_matches_spec_cascade
    (db : List User) (email password f1 f2 : String) (now : Int) (u : User)
    (hsome : db.find? (fun v => v.email == email) = some u)
    (hok : verify_password password u.password_hash = Except.ok true)
    (hver : u.email_verified = true)
    (hactive : ¬ u.status = "active") :
    login db email password f1 f2 now =
      Except.ok (LoginResult.failure (specStatusGateMessage u.status), db) ∧
    ("Your account has been banned." ≠
       "Your account has been suspended. Please contact support." ∧
     "Your account has been banned." ≠
       "Your account is not active. Please verify your email." ∧
     "Your account has been suspended. Please contact support." ≠
       "Your account is not active. Please verify your email.") := by
  refine ⟨?_, by decide, by decide, by decide⟩
  unfold login specStatusGateMessage
  rw [hsome]
  by_cases hb : u.status = "banned" <;> by_cases hs : u.status = "suspended" <;>
    simp_all [hok]

/-- Closed witness for claim C6's theorem: a suspended, email-verified
principal logging in with the right password. -/
theorem login_status_gate_matches_spec_cascade_witness :
    login [demoSuspended] "suspended@example.com" "SecureP@ssw0rd123!" "f1" "f2" 7 =
      Except.ok (LoginResult.failure (specStatusGateMessage demoSuspended.status),
        [demoSuspended]) ∧
    ("Your account has been banned." ≠
       "Your account has been suspended. Please contact support." ∧
     "Your account has been banned." ≠
       "Your account is not active. Please verify your email." ∧
     "Your account has been suspended. Please contact support." ≠
       "Your account is not active. Please verify your email.") := by
  exact login_status_gate_matches_spec_cascade [demoSuspended]
    "suspended@example.com" "SecureP@ssw0rd123!" "f1" "f2" 7 demoSuspended
    (by decide) (by decide) (by decide) (by decide)

/-- Claim C10: whenever `register_user` returns a failure (duplicate email,
weak password, underage, ineligible state), it does so before any `User` is
added to the session, so the session list it returns is exactly the one it
was given. -/
theorem register_user_failure_preserves_db
    (db : List User) (email password : String) (dob : PyDate)
    (state : String) (today : PyDate) (fresh msg : String)
    (h : (register_user db email password dob state today fresh).1 =
      RegisterResult.failure msg) :
    (register_user db email password dob state today fresh).2 = db := by
  unfold register_user at h ⊢
  cases hfind : db.find? (fun u => u.email == email) with
  | some u => rfl
  | none =>
    rw [hfind] at h
    by_cases h1 : (validate_password_strength password).1 = true <;>
    by_cases h2 : calculate_age today dob < MINIMUM_AGE <;>
    by_cases h3 : INELIGIBLE_STATES.contains state.toUpper = true <;>
      simp_all <;> split <;> rfl

/-- Closed witness for claim C10's theorem: re-registering an email that is
already stored fails and leaves the session unchanged. -/
theorem register_user_failure_preserves_db_witness :
    (register_user [demoUser] "user@example.com" "SecureP@ssw0rd123!"
        ⟨2000, 1, 1⟩ "TX" ⟨2026, 10, 12⟩ freshUuidA).2 = [demoUser] := by
  exact register_user_failure_preserves_db [demoUser] "user@example.com"
    "SecureP@ssw0rd123!" ⟨2000, 1, 1⟩ "TX" ⟨2026, 10, 12⟩ freshUuidA
    "Email address already exists" (by decide)

/-- The source's age formula, restated with propositional lexicographic
comparison of (month, day) pairs. -/
lemma calculate_age_eq_prop (today birth : PyDate) :
    calculate_age today birth =
      if today.month < birth.month ∨
         (today.month = birth.month ∧ today.day < birth.day)
      then today.year - birth.year - 1
      else today.year - birth.year := by
  rcases today with ⟨ty, tm, td⟩
  rcases birth with ⟨bY, bm, bd⟩
  unfold calculate_age monthDayLt
  dsimp only
  by_cases h1 : tm < bm <;> by_cases h2 : tm = bm <;> by_cases h3 : td < bd <;>
    simp_all

/-- Claim C5: registration's age computation is calendar-correct.  Part one:
the computed age is the year difference, decremented exactly when today's
(month, day) precedes the birth (month, day).  Part two: a birth date one
day after today's 18-years-ago anniversary fails the `MINIMUM_AGE` check.
Part three: any valid birth date on or before that anniversary passes it.
Part four: `register_user` rejects the one-day-late registrant with the age
failure whenever the earlier checks pass. -/
theorem registration_age_calendar_correct_boundary (today : PyDate)
    (htoday : today.valid)
    (hanniv : (PyDate.mk (today.year - 18) today.month today.day).valid) :
    (∀ birth : PyDate, calculate_age today birth =
       (if today.month < birth.month ∨
           (today.month = birth.month ∧ today.day < birth.day)
        then today.year - birth.year - 1
        else today.year - birth.year)) ∧
    calculate_age today
      (PyDate.nextDay ⟨today.year - 18, today.month, today.day⟩) < MINIMUM_AGE ∧
    (∀ birth : PyDate, birth.valid →
       PyDate.le birth ⟨today.year - 18, today.month, today.day⟩ →
       ¬ calculate_age today birth < MINIMUM_AGE) ∧
    (∀ (db : List User) (email password state fresh : String),
       db.find? (fun u => u.email == email) = none →
       (validate_password_strength password).1 = true →
       register_user db email password
           (PyDate.nextDay ⟨today.year - 18, today.month, today.day⟩)
           state today fresh =
         (RegisterResult.failure "You must be at least 18 years old to register",
          db)) := by
  obtain ⟨Y, m, d⟩ := today
  obtain ⟨hm1, hm2, hd1, hd2⟩ := htoday
  obtain ⟨am1, am2, ad1, ad2⟩ := hanniv
  dsimp only at hd2 ad2 ⊢
  have hage : calculate_age ⟨Y, m, d⟩ (PyDate.nextDay ⟨Y - 18, m, d⟩) < MINIMUM_AGE := by
    unfold PyDate.nextDay
    dsimp only
    by_cases h1 : d < daysInMonth (Y - 18) m
    · rw [if_pos h1, calculate_age_eq_prop]
      dsimp only
      rw [if_pos (Or.inr ⟨rfl, by omega⟩)]
      unfold MINIMUM_AGE
      omega
    · rw [if_neg h1]
      by_cases h2 : m < 12
      · rw [if_pos h2, calculate_age_eq_prop]
        dsimp only
        rw [if_pos (Or.inl (by omega))]
        unfold MINIMUM_AGE
        omega
      · rw [if_neg h2, calculate_age_eq_prop]
        dsimp only
        rw [if_neg (by omega)]
        unfold MINIMUM_AGE
        omega
  refine ⟨fun birth => calculate_age_eq_prop _ _, hage, ?_, ?_⟩
  · rintro ⟨bY, bm, bd⟩ ⟨vb1, vb2, vb3, vb4⟩ hle
    rw [calculate_age_eq_prop]
    unfold PyDate.le at hle
    dsimp only at hle ⊢
    unfold MINIMUM_AGE
    by_cases hc : m < bm ∨ (m = bm ∧ d < bd)
    · rw [if_pos hc]; omega
    · rw [if_neg hc]; omega
  · intro db email password state fresh hfind hpw
    simp [register_user, hfind, hpw, hage]

/-- Closed witness for claim C5's theorem at today = 2026-10-12: a birth
date of 2008-10-13 (one day past the anniversary) is rejected as underage
while 2008-10-12 (the anniversary itself) passes the age check. -/
theorem registration_age_calendar_correct_boundary_witness :
    calculate_age ⟨2026, 10, 12⟩
      (PyDate.nextDay ⟨(2026 : Int) - 18, 10, 12⟩) < MINIMUM_AGE ∧
    ¬ calculate_age ⟨2026, 10, 12⟩ ⟨2008, 10, 12⟩ < MINIMUM_AGE := by
  refine ⟨(registration_age_calendar_correct_boundary ⟨2026, 10, 12⟩
    (by decide) (by decide)).2.1, ?_⟩
  exact (registration_age_calendar_correct_boundary ⟨2026, 10, 12⟩
    (by decide) (by decide)).2.2.1 ⟨2008, 10, 12⟩ (by decide) (by decide)

end FitTrack
